import Mathlib

/-!
Shallow embedding of the filtering and aggregation logic of the cattle
health-conditions dashboard (src/streamlit_app.py).

Conventions of the embedding:
- a period "YYYY-MM" is encoded as the natural number year * 12 + (month - 1);
  the order on these numbers is the calendar order that pd.to_datetime of the
  first-of-month dates induces;
- float arithmetic is embedded as exact rationals;
- a pandas NaN or inf arising from a zero denominator (0/0, x/0, mean of an
  empty series, max of an empty series) — and the ValueError that int(nan)
  raises — is embedded as Option.none; a finite float value is Option.some;
- a pandas groupby aggregates each group and emits the distinct keys in
  ascending sorted order, which is embedded as dedup followed by insertionSort.
-/

/-- One normalized dataset row, as produced by load_data: YearMonth parsed to a
month number, Condition stripped, the numeric columns as loaded. -/
structure Record where
  period : Nat
  species : String
  inspection_type : String
  condition : String
  condition_count : Nat
  throughput : Nat
  throughput_percentage : ℚ
  reporting_plant_count : Nat
deriving DecidableEq

/-- Sidebar filter selections (lines 28-41 of src/streamlit_app.py): selected
species, selected inspection types, and an inclusive period range. -/
structure FilterCriteria where
  species : List String
  inspection_types : List String
  start_period : Nat
  end_period : Nat

/-- Embeds lines 33-50 of src/streamlit_app.py: an empty multiselect is reset
to every value occurring in the dataset, then the boolean mask keeps the rows
whose species and inspection type are selected and whose period lies in the
inclusive date range; df.loc of the mask keeps the surviving rows in their
original order. -/
def apply_filter (records : List Record) (c : FilterCriteria) : List Record :=
  let sp := if c.species.isEmpty then (records.map Record.species).dedup
    else c.species
  let it := if c.inspection_types.isEmpty then
    (records.map Record.inspection_type).dedup else c.inspection_types
  records.filter fun r =>
    decide (r.species ∈ sp) && decide (r.inspection_type ∈ it) &&
      decide (c.start_period ≤ r.period) && decide (r.period ≤ c.end_period)

/-- Written from the spec's words for FilterCriteria (refinement target): a
record matches when its species is in the allowed set or that set is empty,
its inspection type is in the allowed set or that set is empty, and its
period lies in the inclusive range. -/
def matchesCriteria (c : FilterCriteria) (r : Record) : Bool :=
  (c.species.isEmpty || decide (r.species ∈ c.species)) &&
    (c.inspection_types.isEmpty ||
      decide (r.inspection_type ∈ c.inspection_types)) &&
    decide (c.start_period ≤ r.period) && decide (r.period ≤ c.end_period)

/-- Sample record of the spec's two-row scenario: 2020-10, Cattle,
Ante-mortem, Bruising, count 4, throughput 200, pct 2.0, plants 3. -/
def recAnte : Record :=
  { period := 24249, species := "Cattle", inspection_type := "Ante-mortem",
    condition := "Bruising", condition_count := 4, throughput := 200,
    throughput_percentage := 2, reporting_plant_count := 3 }

/-- Sample record of the spec's two-row scenario: 2020-10, Cattle,
Post-mortem, Abscess, count 6, throughput 200, pct 3.0, plants 3. -/
def recPost : Record :=
  { period := 24249, species := "Cattle", inspection_type := "Post-mortem",
    condition := "Abscess", condition_count := 6, throughput := 200,
    throughput_percentage := 3, reporting_plant_count := 3 }

/-- The spec's two-row scenario dataset. -/
def scenarioRecords : List Record := [recAnte, recPost]

/-- Summary metrics of lines 56-59: total of NumberOfConditions, mean of
PercentageOfThroughput, max of NumberOfThroughputPlants.  On an empty frame
the mean is NaN (embedded none) and the max of an empty series is NaN, so the
int conversion of the max raises ValueError (embedded none). -/
structure SummaryMetrics where
  total_conditions : Nat
  avg_throughput_percentage : Option ℚ
  max_reporting_plants : Option Nat
deriving DecidableEq

/-- Embeds the three summary metrics of lines 56-59 of src/streamlit_app.py. -/
def compute_summary (records : List Record) : SummaryMetrics :=
  { total_conditions := (records.map Record.condition_count).sum
    avg_throughput_percentage :=
      if records.isEmpty then none
      else some ((records.map Record.throughput_percentage).sum / records.length)
    max_reporting_plants := (records.map Record.reporting_plant_count).max? }

/-- Lexicographic comparison of character lists, the order underlying the
string sort a pandas groupby performs on its keys. -/
def charListLe : List Char → List Char → Bool
  | [], _ => true
  | _ :: _, [] => false
  | a :: as, b :: bs => if a = b then charListLe as bs else decide (a < b)

/-- Lexicographic string comparison. -/
def strLe (a b : String) : Bool := charListLe a.toList b.toList

/-- Sorted distinct period values, the order in which a pandas groupby on
YearMonth enumerates its groups. -/
def sortedNatKeys (l : List Nat) : List Nat :=
  l.dedup.insertionSort fun a b => a ≤ b

/-- Sorted distinct string values, the order in which a pandas groupby on a
string column enumerates its groups. -/
def sortedStrKeys (l : List String) : List String :=
  l.dedup.insertionSort fun a b => strLe a b = true

/-- Embeds a groupby on YearMonth followed by a column sum (lines 66 and 127):
the distinct periods in ascending order, each paired with the sum of the
chosen column over that period's rows. -/
def groupPeriodSums (records : List Record) (v : Record → Nat) :
    List (Nat × Nat) :=
  (sortedNatKeys (records.map Record.period)).map fun p =>
    (p, ((records.filter fun r => decide (r.period = p)).map v).sum)

/-- Line 66: monthly totals of NumberOfConditions. -/
def compute_monthly_trend (records : List Record) : List (Nat × Nat) :=
  groupPeriodSums records Record.condition_count

/-- Line 127: monthly totals of NumberOfThroughputPlants. -/
def compute_monthly_plant_coverage (records : List Record) : List (Nat × Nat) :=
  groupPeriodSums records Record.reporting_plant_count

/-- Embeds lines 82-86: groupby Species with sums of NumberOfConditions and
Throughput, then rate = conditions / throughput * 100.  A zero denominator
yields a non-finite float (inf or NaN), embedded none. -/
def compute_species_rates (records : List Record) : List (String × Option ℚ) :=
  (sortedStrKeys (records.map Record.species)).map fun sp =>
    let grp := records.filter fun r => decide (r.species = sp)
    let num : Nat := (grp.map Record.condition_count).sum
    let den : Nat := (grp.map Record.throughput).sum
    (sp, if den = 0 then none else some ((num : ℚ) / (den : ℚ) * 100))

/-- Embeds lines 95-101: groupby InspectionType with the sum of
NumberOfConditions per type; the total is the sum of the group sums; each
share is group / total * 100.  A zero total makes every share non-finite
(NaN), embedded none. -/
def compute_inspection_distribution (records : List Record) :
    List (String × Option ℚ) :=
  let keys := sortedStrKeys (records.map Record.inspection_type)
  let grpSum := fun it =>
    ((records.filter fun r => decide (r.inspection_type = it)).map
      Record.condition_count).sum
  let total : Nat := (keys.map grpSum).sum
  keys.map fun it =>
    (it, if total = 0 then none
      else some ((grpSum it : ℚ) / (total : ℚ) * 100))

/-- One raw CSV row as read_csv delivers it: YearMonth still a string, the
numeric columns already typed by the reader (the source applies no further
validation to them). -/
structure RawRow where
  yearMonth : String
  species : String
  inspection_type : String
  condition : String
  condition_count : Nat
  throughput : Nat
  throughput_percentage : ℚ
  reporting_plant_count : Nat
deriving DecidableEq

/-- Models the strip method of Python strings: drop the whitespace prefix and
the whitespace suffix of the character list. -/
def stripChars (cs : List Char) : List Char :=
  ((cs.dropWhile Char.isWhitespace).reverse.dropWhile Char.isWhitespace).reverse

/-- String version of stripChars, embedding the str.strip call of line 15. -/
def strip (s : String) : String := String.mk (stripChars s.toList)

/-- Models pd.to_datetime applied to YearMonth ++ "-01" (line 14): a string of
the exact form YYYY-MM with a valid month parses to year * 12 + (month - 1);
anything else raises, embedded none. -/
def parseYearMonth (s : String) : Option Nat :=
  match s.toList with
  | [y1, y2, y3, y4, sep, m1, m2] =>
    if sep = '-' && y1.isDigit && y2.isDigit && y3.isDigit && y4.isDigit &&
        m1.isDigit && m2.isDigit then
      let y := (((y1.toNat - 48) * 10 + (y2.toNat - 48)) * 10 +
        (y3.toNat - 48)) * 10 + (y4.toNat - 48)
      let m := (m1.toNat - 48) * 10 + (m2.toNat - 48)
      if 1 ≤ m && m ≤ 12 then some (y * 12 + (m - 1)) else none
    else none
  | _ => none

/-- Embeds load_data (lines 10-16): parse YearMonth of every row (a malformed
one raises, embedded as none for the whole load) and strip the Condition
column of surrounding whitespace; no other cleaning or validation happens. -/
def load_data : List RawRow → Option (List Record)
  | [] => some []
  | row :: rows => do
    let p ← parseYearMonth row.yearMonth
    let rest ← load_data rows
    some ({ period := p, species := row.species,
            inspection_type := row.inspection_type,
            condition := strip row.condition,
            condition_count := row.condition_count,
            throughput := row.throughput,
            throughput_percentage := row.throughput_percentage,
            reporting_plant_count := row.reporting_plant_count } :: rest)

/-- Raw row whose Condition is whitespace only. -/
def blankConditionRow : RawRow :=
  { yearMonth := "2020-10", species := "Cattle",
    inspection_type := "Ante-mortem", condition := "   ",
    condition_count := 1, throughput := 10,
    throughput_percentage := 10, reporting_plant_count := 1 }

/-- The record load_data produces from blankConditionRow. -/
def blankConditionRecord : Record :=
  { period := 24249, species := "Cattle", inspection_type := "Ante-mortem",
    condition := "", condition_count := 1, throughput := 10,
    throughput_percentage := 10, reporting_plant_count := 1 }

/-- Record with zero throughput, exercising the zero-denominator rate case. -/
def zeroThroughputRecord : Record :=
  { period := 24249, species := "Goat", inspection_type := "Post-mortem",
    condition := "Lameness", condition_count := 2, throughput := 0,
    throughput_percentage := 0, reporting_plant_count := 1 }

/-- Record with zero condition count, making every distribution share
undefined. -/
def zeroCountRecord : Record :=
  { period := 24249, species := "Cattle", inspection_type := "Ante-mortem",
    condition := "Bruising", condition_count := 0, throughput := 100,
    throughput_percentage := 0, reporting_plant_count := 1 }

lemma apply_filter_eq_filter (records : List Record) (c : FilterCriteria) :
    apply_filter records c = records.filter (matchesCriteria c) := by
  unfold apply_filter
  apply List.filter_congr
  intro r hr
  unfold matchesCriteria
  cases hs : c.species.isEmpty <;> cases hi : c.inspection_types.isEmpty <;>
    simp [hs, hi, List.mem_dedup, List.mem_map_of_mem _ hr]

/-- C9: apply_filter returns a subsequence of its input (so the relative order
of the kept records is unchanged), and the kept records are exactly those
matching the criteria: species and inspection-type sets are interpreted as
match-all when empty, and the period bound is inclusive. -/
theorem apply_filter_refines_spec (records : List Record) (c : FilterCriteria) :
    (apply_filter records c).Sublist records ∧
      apply_filter records c = records.filter (matchesCriteria c) := by
  refine ⟨?_, apply_filter_eq_filter records c⟩
  rw [apply_filter_eq_filter]
  exact List.filter_sublist records

/-- C3: with both the species set and the inspection-type set empty,
apply_filter keeps exactly the records whose period lies in the inclusive
range, excluding nothing by species or inspection type. -/
theorem apply_filter_empty_criteria_date_only (records : List Record)
    (c : FilterCriteria) (hs : c.species = []) (hi : c.inspection_types = []) :
    apply_filter records c = records.filter fun r =>
      decide (c.start_period ≤ r.period) && decide (r.period ≤ c.end_period) := by
  rw [apply_filter_eq_filter]
  apply List.filter_congr
  intro r hr
  simp [matchesCriteria, hs, hi]

/-- Witness for C3 at a concrete dataset and concrete empty criteria. -/
theorem apply_filter_empty_criteria_date_only_witness :
    apply_filter scenarioRecords
        { species := [], inspection_types := [],
          start_period := 24249, end_period := 24249 } =
      scenarioRecords.filter fun r =>
        decide (24249 ≤ r.period) && decide (r.period ≤ 24249) :=
  apply_filter_empty_criteria_date_only scenarioRecords
    { species := [], inspection_types := [],
      start_period := 24249, end_period := 24249 } rfl rfl

/-- C10: filtering a second time with the same criteria returns the first
pass's output unchanged. -/
theorem apply_filter_idempotent (records : List Record) (c : FilterCriteria) :
    apply_filter (apply_filter records c) c = apply_filter records c := by
  rw [apply_filter_eq_filter, apply_filter_eq_filter, List.filter_filter]
  apply List.filter_congr
  intro r hr
  simp

lemma sum_map_ite_not_mem {κ M : Type} [DecidableEq κ] [AddCommMonoid M]
    (keys : List κ) (x : κ) (c : M) (hx : x ∉ keys) :
    (keys.map fun key => if x = key then c else 0).sum = 0 := by
  induction keys with
  | nil => simp
  | cons y ys ih =>
    rw [List.mem_cons, not_or] at hx
    simp [if_neg hx.1, ih hx.2]

lemma sum_map_ite_mem {κ M : Type} [DecidableEq κ] [AddCommMonoid M]
    (keys : List κ) (x : κ) (c : M) (hnd : keys.Nodup) (hx : x ∈ keys) :
    (keys.map fun key => if x = key then c else 0).sum = c := by
  induction keys with
  | nil => cases hx
  | cons y ys ih =>
    rw [List.nodup_cons] at hnd
    rcases List.mem_cons.mp hx with h | h
    · subst h
      simp [sum_map_ite_not_mem ys x c hnd.1]
    · have hxy : x ≠ y := fun e => hnd.1 (e ▸ h)
      simp [if_neg hxy, ih hnd.2 h]

lemma sum_map_add_pointwise {α M : Type} [AddCommMonoid M] (l : List α)
    (f g : α → M) :
    (l.map fun a => f a + g a).sum = (l.map f).sum + (l.map g).sum := by
  induction l with
  | nil => simp
  | cons a l ih =>
    simp only [List.map_cons, List.sum_cons, ih]
    abel

lemma sum_groupSums {α κ M : Type} [DecidableEq κ] [AddCommMonoid M]
    (l : List α) (k : α → κ) (v : α → M) (keys : List κ)
    (hnd : keys.Nodup) (hall : ∀ a ∈ l, k a ∈ keys) :
    (keys.map fun key =>
      ((l.filter fun a => decide (k a = key)).map v).sum).sum = (l.map v).sum := by
  induction l with
  | nil => simp
  | cons a l ih =>
    have hsplit : ∀ key : κ,
        (((a :: l).filter fun x => decide (k x = key)).map v).sum
          = (if k a = key then v a else 0)
            + ((l.filter fun x => decide (k x = key)).map v).sum := by
      intro key
      by_cases h : k a = key
      · simp [List.filter_cons, h]
      · simp [List.filter_cons, h]
    calc (keys.map fun key =>
          (((a :: l).filter fun x => decide (k x = key)).map v).sum).sum
        = (keys.map fun key => (if k a = key then v a else 0)
            + ((l.filter fun x => decide (k x = key)).map v).sum).sum := by
          exact congrArg List.sum (List.map_congr_left fun key _ => hsplit key)
      _ = (keys.map fun key => if k a = key then v a else 0).sum
            + (keys.map fun key =>
              ((l.filter fun x => decide (k x = key)).map v).sum).sum :=
          sum_map_add_pointwise keys _ _
      _ = v a + (l.map v).sum := by
          rw [sum_map_ite_mem keys (k a) (v a) hnd (hall a (List.mem_cons_self a l)),
            ih fun x hx => hall x (List.mem_cons_of_mem a hx)]
      _ = ((a :: l).map v).sum := by simp

lemma sortedNatKeys_perm (l : List Nat) :
    List.Perm (sortedNatKeys l) l.dedup :=
  List.perm_insertionSort _ l.dedup

lemma sortedNatKeys_mem (l : List Nat) (x : Nat) :
    x ∈ sortedNatKeys l ↔ x ∈ l := by
  rw [sortedNatKeys, List.mem_insertionSort, List.mem_dedup]

lemma sortedNatKeys_nodup (l : List Nat) : (sortedNatKeys l).Nodup :=
  ((sortedNatKeys_perm l).nodup_iff).mpr l.nodup_dedup

lemma sortedNatKeys_pairwise_lt (l : List Nat) :
    (sortedNatKeys l).Pairwise fun a b => a < b := by
  have hs : (sortedNatKeys l).Pairwise fun a b : Nat => a ≤ b :=
    List.sorted_insertionSort _ l.dedup
  exact (hs.and (sortedNatKeys_nodup l)).imp fun h => lt_of_le_of_ne h.1 h.2

lemma sortedStrKeys_perm (l : List String) :
    List.Perm (sortedStrKeys l) l.dedup :=
  List.perm_insertionSort _ l.dedup

lemma sortedStrKeys_mem (l : List String) (x : String) :
    x ∈ sortedStrKeys l ↔ x ∈ l := by
  rw [sortedStrKeys, List.mem_insertionSort, List.mem_dedup]

lemma sortedStrKeys_nodup (l : List String) : (sortedStrKeys l).Nodup :=
  ((sortedStrKeys_perm l).nodup_iff).mpr l.nodup_dedup

lemma dedup_covers {α κ : Type} [DecidableEq κ] (l : List α) (k : α → κ) :
    ∀ a ∈ l, k a ∈ (l.map k).dedup :=
  fun _ ha => List.mem_dedup.mpr (List.mem_map_of_mem k ha)

lemma groupPeriodSums_sum (records : List Record) (v : Record → Nat) :
    ((groupPeriodSums records v).map Prod.snd).sum = (records.map v).sum := by
  unfold groupPeriodSums
  rw [List.map_map]
  have h1 : (Prod.snd ∘ fun p : Nat =>
      (p, ((records.filter fun r => decide (r.period = p)).map v).sum))
      = fun p => ((records.filter fun r => decide (r.period = p)).map v).sum :=
    rfl
  rw [h1, ((sortedNatKeys_perm (records.map Record.period)).map _).sum_eq]
  exact sum_groupSums records Record.period v ((records.map Record.period).dedup)
    (records.map Record.period).nodup_dedup (dedup_covers records Record.period)

lemma groupPeriodSums_pairwise (records : List Record) (v : Record → Nat) :
    (groupPeriodSums records v).Pairwise fun a b => a.1 < b.1 := by
  unfold groupPeriodSums
  rw [List.pairwise_map]
  exact sortedNatKeys_pairwise_lt (records.map Record.period)

lemma groupPeriodSums_val (records : List Record) (v : Record → Nat) :
    ∀ e ∈ groupPeriodSums records v,
      e.2 = ((records.filter fun r => decide (r.period = e.1)).map v).sum := by
  intro e he
  unfold groupPeriodSums at he
  rcases List.mem_map.mp he with ⟨p, _, rfl⟩
  rfl

lemma groupPeriodSums_keys (records : List Record) (v : Record → Nat) :
    ∀ p : Nat, (∃ e ∈ groupPeriodSums records v, e.1 = p) ↔
      ∃ r ∈ records, r.period = p := by
  intro p
  constructor
  · rintro ⟨e, he, rfl⟩
    unfold groupPeriodSums at he
    rcases List.mem_map.mp he with ⟨q, hq, rfl⟩
    rcases List.mem_map.mp ((sortedNatKeys_mem _ q).mp hq) with ⟨r, hr, hrp⟩
    exact ⟨r, hr, hrp⟩
  · rintro ⟨r, hr, rfl⟩
    refine ⟨(r.period,
      ((records.filter fun x => decide (x.period = r.period)).map v).sum), ?_, rfl⟩
    unfold groupPeriodSums
    exact List.mem_map.mpr ⟨r.period,
      (sortedNatKeys_mem _ _).mpr (List.mem_map_of_mem Record.period hr), rfl⟩

/-- C5: the monthly trend totals sum to the total_conditions that
compute_summary reports for the same records. -/
theorem monthly_trend_total_matches_summary (records : List Record) :
    ((compute_monthly_trend records).map Prod.snd).sum
      = (compute_summary records).total_conditions :=
  groupPeriodSums_sum records Record.condition_count

/-- C7: compute_monthly_trend and compute_monthly_plant_coverage group the
records by period: every emitted pair carries the sum of its column over
exactly the records of its period, the pairs are strictly ascending in
period, and a period appears exactly when some record carries it (so months
without records get no entry). -/
theorem monthly_views_group_by_period (records : List Record) :
    ((compute_monthly_trend records).Pairwise fun a b => a.1 < b.1) ∧
    (∀ e ∈ compute_monthly_trend records,
      e.2 = ((records.filter fun r => decide (r.period = e.1)).map
        Record.condition_count).sum) ∧
    (∀ p : Nat, (∃ e ∈ compute_monthly_trend records, e.1 = p) ↔
      ∃ r ∈ records, r.period = p) ∧
    ((compute_monthly_plant_coverage records).Pairwise fun a b => a.1 < b.1) ∧
    (∀ e ∈ compute_monthly_plant_coverage records,
      e.2 = ((records.filter fun r => decide (r.period = e.1)).map
        Record.reporting_plant_count).sum) ∧
    (∀ p : Nat, (∃ e ∈ compute_monthly_plant_coverage records, e.1 = p) ↔
      ∃ r ∈ records, r.period = p) :=
  ⟨groupPeriodSums_pairwise records Record.condition_count,
    groupPeriodSums_val records Record.condition_count,
    groupPeriodSums_keys records Record.condition_count,
    groupPeriodSums_pairwise records Record.reporting_plant_count,
    groupPeriodSums_val records Record.reporting_plant_count,
    groupPeriodSums_keys records Record.reporting_plant_count⟩

/-- Witness for C7: the per-group sum statement applied to the concrete pair
the trend emits for the scenario records. -/
theorem monthly_views_group_by_period_witness :
    ((24249, 10) : Nat × Nat).2
      = ((scenarioRecords.filter fun r =>
          decide (r.period = ((24249, 10) : Nat × Nat).1)).map
          Record.condition_count).sum :=
  (monthly_views_group_by_period scenarioRecords).2.1 (24249, 10) (by decide)

/-- C2: a species present in the records whose summed throughput is zero is
mapped to the undefined sentinel none: the rate computation does not raise,
and the species maps to no numeric value, in particular not to 0. -/
theorem species_rate_zero_throughput_undefined (records : List Record)
    (sp : String) (hmem : sp ∈ records.map Record.species)
    (hz : ((records.filter fun r => decide (r.species = sp)).map
      Record.throughput).sum = 0) :
    (sp, (none : Option ℚ)) ∈ compute_species_rates records ∧
      ∀ v, (sp, v) ∈ compute_species_rates records → v = none := by
  constructor
  · unfold compute_species_rates
    refine List.mem_map.mpr ⟨sp, (sortedStrKeys_mem _ sp).mpr hmem, ?_⟩
    simp [hz]
  · intro v hv
    unfold compute_species_rates at hv
    rcases List.mem_map.mp hv with ⟨sp2, _, heq⟩
    simp only [Prod.mk.injEq] at heq
    obtain ⟨h1, h2⟩ := heq
    subst h1
    rw [← h2]
    simp [hz]

/-- Witness for C2: the Goat group of the zero-throughput record receives the
undefined sentinel. -/
theorem species_rate_zero_throughput_undefined_witness :
    ("Goat", (none : Option ℚ)) ∈ compute_species_rates [zeroThroughputRecord] :=
  (species_rate_zero_throughput_undefined [zeroThroughputRecord] "Goat"
    (by decide) (by decide)).1

/-- C1 (code behavior at the failing input): on the empty filtered set the
total is 0, but the mean is NaN rather than 0 and the int conversion of the
max of an empty series raises ValueError, both embedded as none. -/
theorem compute_summary_empty_behavior :
    compute_summary []
      = { total_conditions := 0, avg_throughput_percentage := none,
          max_reporting_plants := none } :=
  rfl

/-- C4 counterexample: one record with condition count 0 gives a non-empty
set whose every share is the undefined NaN, so the shares are not a list of
numbers summing to 100 within any tolerance. -/
theorem inspection_distribution_sum_counterexample :
    ¬ ∀ records : List Record, records ≠ [] →
      ∃ qs : List ℚ,
        (compute_inspection_distribution records).map Prod.snd = qs.map some ∧
          |qs.sum - 100| ≤ 1 / 1000000 := by
  intro hclaim
  rcases hclaim [zeroCountRecord] (List.cons_ne_nil _ _) with ⟨qs, hqs, _⟩
  have hd : (compute_inspection_distribution [zeroCountRecord]).map Prod.snd
      = [(none : Option ℚ)] := rfl
  rw [hd] at hqs
  cases qs with
  | nil => simp at hqs
  | cons q qs2 => simp at hqs

/-- C4 amended: whenever the summed condition count of the records is
positive, every share is a defined number and the shares sum to exactly 100,
hence in particular to 100 within 1e-6. -/
theorem inspection_distribution_sums_to_100 (records : List Record)
    (h : 0 < (records.map Record.condition_count).sum) :
    ∃ qs : List ℚ,
      (compute_inspection_distribution records).map Prod.snd = qs.map some ∧
        qs.sum = 100 := by
  have hTne : (records.map Record.condition_count).sum ≠ 0 :=
    Nat.pos_iff_ne_zero.mp h
  have htot : ((sortedStrKeys (records.map Record.inspection_type)).map fun it =>
      ((records.filter fun r => decide (r.inspection_type = it)).map
        Record.condition_count).sum).sum
      = (records.map Record.condition_count).sum := by
    rw [((sortedStrKeys_perm (records.map Record.inspection_type)).map _).sum_eq]
    exact sum_groupSums records Record.inspection_type Record.condition_count
      ((records.map Record.inspection_type).dedup)
      (records.map Record.inspection_type).nodup_dedup
      (dedup_covers records Record.inspection_type)
  have hcastne : (((records.map Record.condition_count).sum : Nat) : ℚ) ≠ 0 :=
    Nat.cast_ne_zero.mpr hTne
  refine ⟨(sortedStrKeys (records.map Record.inspection_type)).map fun it =>
    ((((records.filter fun r => decide (r.inspection_type = it)).map
      Record.condition_count).sum : Nat) : ℚ)
      / (((records.map Record.condition_count).sum : Nat) : ℚ) * 100, ?_, ?_⟩
  · simp only [compute_inspection_distribution]
    rw [List.map_map, List.map_map]
    apply List.map_congr_left
    intro it hit
    simp only [Function.comp_apply]
    rw [htot, if_neg hTne]
  · have hstep : ((sortedStrKeys (records.map Record.inspection_type)).map fun it =>
        ((((records.filter fun r => decide (r.inspection_type = it)).map
          Record.condition_count).sum : Nat) : ℚ)
          / (((records.map Record.condition_count).sum : Nat) : ℚ) * 100)
        = (sortedStrKeys (records.map Record.inspection_type)).map fun it =>
          ((((records.filter fun r => decide (r.inspection_type = it)).map
            Record.condition_count).sum : Nat) : ℚ)
            * (100 / (((records.map Record.condition_count).sum : Nat) : ℚ)) :=
      List.map_congr_left fun it _ => by ring
    rw [hstep, List.sum_map_mul_right]
    have hcast : ((sortedStrKeys (records.map Record.inspection_type)).map fun it =>
        ((((records.filter fun r => decide (r.inspection_type = it)).map
          Record.condition_count).sum : Nat) : ℚ)).sum
        = (((records.map Record.condition_count).sum : Nat) : ℚ) := by
      rw [← htot, Nat.cast_list_sum, List.map_map]
      rfl
    rw [hcast, mul_comm, div_mul_cancel₀ _ hcastne]

/-- Witness for C4 at the scenario records, whose total condition count is
positive. -/
theorem inspection_distribution_sums_to_100_witness :
    ∃ qs : List ℚ,
      (compute_inspection_distribution scenarioRecords).map Prod.snd
          = qs.map some ∧
        qs.sum = 100 :=
  inspection_distribution_sums_to_100 scenarioRecords (by decide)

/-- C6 counterexample: on the spec's two-row scenario the species rate the
code computes is 10 / 400 * 100 = 2.5 for Cattle, not the 5.0 the scenario
claims, because the throughput of both rows is summed. -/
theorem scenario_species_rate_not_five :
    compute_species_rates scenarioRecords ≠ [("Cattle", some 5)] := by
  have hv : compute_species_rates scenarioRecords
      = [("Cattle", some (((10 : Nat) : ℚ) / ((400 : Nat) : ℚ) * 100))] := rfl
  rw [hv]
  norm_num

/-- C6 amended: on the scenario the summary is total 10, mean 2.5, max
plants 3; the Cattle rate is 2.5 (10 conditions over a 400 summed throughput,
times 100); the distribution is Ante-mortem 40 percent and Post-mortem 60. -/
theorem scenario_aggregate_values :
    compute_summary scenarioRecords
        = { total_conditions := 10, avg_throughput_percentage := some (5 / 2),
            max_reporting_plants := some 3 } ∧
      compute_species_rates scenarioRecords = [("Cattle", some (5 / 2))] ∧
      compute_inspection_distribution scenarioRecords
        = [("Ante-mortem", some 40), ("Post-mortem", some 60)] := by
  refine ⟨?_, ?_, ?_⟩
  · have hv : compute_summary scenarioRecords
        = { total_conditions := 10,
            avg_throughput_percentage :=
              some (((2 : ℚ) + (3 + 0)) / ((2 : Nat) : ℚ)),
            max_reporting_plants := some 3 } := rfl
    rw [hv]
    norm_num
  · have hv : compute_species_rates scenarioRecords
        = [("Cattle", some (((10 : Nat) : ℚ) / ((400 : Nat) : ℚ) * 100))] := rfl
    rw [hv]
    norm_num
  · have hv : compute_inspection_distribution scenarioRecords
        = [("Ante-mortem", some (((4 : Nat) : ℚ) / ((10 : Nat) : ℚ) * 100)),
           ("Post-mortem", some (((6 : Nat) : ℚ) / ((10 : Nat) : ℚ) * 100))] :=
      rfl
    rw [hv]
    norm_num

/-- C8 counterexample: a row whose Condition is whitespace only loads without
any error into a record whose condition is the empty string, so no
EmptyCondition failure exists and an empty condition is produced. -/
theorem load_data_accepts_blank_condition :
    load_data [blankConditionRow] = some [blankConditionRecord] ∧
      blankConditionRecord.condition = "" :=
  ⟨rfl, rfl⟩

/-- C8 amended: load_data strips every row's Condition of surrounding
whitespace; each loaded record's condition is exactly the stripped raw value,
and rows left empty by the strip are kept rather than rejected. -/
theorem load_data_strips_conditions (rows : List RawRow) (recs : List Record)
    (h : load_data rows = some recs) :
    recs.map Record.condition = rows.map fun row => strip row.condition := by
  induction rows generalizing recs with
  | nil =>
    simp only [load_data] at h
    cases h
    rfl
  | cons row rows ih =>
    simp only [load_data] at h
    cases hp : parseYearMonth row.yearMonth with
    | none => rw [hp] at h; simp at h
    | some p =>
      rw [hp] at h
      cases hr : load_data rows with
      | none => rw [hr] at h; simp at h
      | some rest =>
        rw [hr] at h
        simp at h
        rw [← h]
        simp only [List.map_cons]
        rw [ih rest hr]

/-- Witness for C8 at the blank-condition row. -/
theorem load_data_strips_conditions_witness :
    [blankConditionRecord].map Record.condition
      = [blankConditionRow].map fun row => strip row.condition :=
  load_data_strips_conditions [blankConditionRow] [blankConditionRecord] rfl
